import Mathlib

/-!
Verification of the DI-SQL-Agent metadata / SQL-comparison generator.

The development shallowly embeds the two core modules of the repository:

* `src/metadata.py`   — `ColumnMetadata`, `TableMetadata`, JSON loading;
* `src/comparison_agent.py` — `align_columns`, `quote_identifier`,
  `build_select`, `generate_comparison_selects`.

Python-level dynamic behaviour that the source relies on is made explicit:
JSON values are an inductive type, `x or y` chains use Python truthiness,
`str()` conversion and `dict.get` lookup are modelled as functions, and
fallible loading returns `Except String`.
-/

/-- A parsed JSON value, as produced by `json.loads`. -/
inductive Json where
  | null : Json
  | bool (b : Bool) : Json
  | num (n : Int) : Json
  | str (s : String) : Json
  | arr (xs : List Json) : Json
  | obj (kvs : List (String × Json)) : Json

/-- Python truthiness of a JSON value (`bool(v)`): `None`, `False`, `0`,
`""`, `[]` and an empty object are falsy, everything else truthy. -/
def pyJsonTruthy : Json → Bool
  | .null => false
  | .bool b => b
  | .num n => n != 0
  | .str s => s != ""
  | .arr xs => !xs.isEmpty
  | .obj kvs => !kvs.isEmpty

/-- Truthiness of a `dict.get` result: `None` (absent key) is falsy. -/
def optTruthy : Option Json → Bool
  | none => false
  | some v => pyJsonTruthy v

/-- Python `a or b` on two `dict.get` results: the first operand if it is
truthy, otherwise the second operand (which may itself be falsy). -/
def pyOr (a b : Option Json) : Option Json :=
  match a with
  | some v => if pyJsonTruthy v then some v else b
  | none => b

/-- A single quote character, `'`. -/
def squote : String := String.singleton (Char.ofNat 39)

/-- Python `repr` of a string: single-quoted, or double-quoted when the
string contains a single quote but no double quote.  Escape sequences for
control characters and backslashes are not modelled; no identifier in this
development contains them. -/
def pyStrRepr (s : String) : String :=
  if s.contains (Char.ofNat 39) && !s.contains (Char.ofNat 34) then
    "\"" ++ s ++ "\""
  else
    squote ++ s ++ squote

mutual

/-- Python `repr` of a JSON value (for non-strings `str` and `repr` agree). -/
def pyReprJ : Json → String
  | .null => "None"
  | .bool b => if b then "True" else "False"
  | .num n => toString n
  | .str s => pyStrRepr s
  | .arr xs => "[" ++ String.intercalate ", " (pyReprJList xs) ++ "]"
  | .obj kvs => "\x7b" ++ String.intercalate ", " (pyReprJPairs kvs) ++ "\x7d"

/-- `repr` of each element of a JSON array. -/
def pyReprJList : List Json → List String
  | [] => []
  | x :: xs => pyReprJ x :: pyReprJList xs

/-- `repr` of each key/value pair of a JSON object. -/
def pyReprJPairs : List (String × Json) → List String
  | [] => []
  | (k, v) :: xs => (pyStrRepr k ++ ": " ++ pyReprJ v) :: pyReprJPairs xs

end

/-- Python `str()` of a JSON value: identity on strings, `repr` otherwise
(for `None`, booleans, ints, lists and dicts `str` and `repr` coincide). -/
def pyStr (j : Json) : String :=
  match j with
  | .str s => s
  | v => pyReprJ v

/-- Python `repr` of a list of strings, as interpolated by an f-string
(`f"... {source_metadata.column_names} ..."`). -/
def pyReprStrList (xs : List String) : String :=
  "[" ++ String.intercalate ", " (xs.map pyStrRepr) ++ "]"

/-- `d.get(k)` on a parsed JSON object.  `json.loads` keeps the last
occurrence of a duplicated key, so the last binding wins. -/
def jget (d : List (String × Json)) (k : String) : Option Json :=
  match d with
  | [] => none
  | (k2, v) :: rest =>
    match jget rest k with
    | some w => some w
    | none => if k2 = k then some v else none

/-- `k in d` on a parsed JSON object. -/
def jhas (d : List (String × Json)) (k : String) : Bool :=
  d.any (fun p => p.1 == k)

/-- Python iteration over a JSON value: lists yield their elements, strings
their characters, dicts their keys; other values raise `TypeError`. -/
def pyIter : Json → Except String (List Json)
  | .arr xs => .ok xs
  | .str s => .ok (s.toList.map (fun ch => Json.str (String.singleton ch)))
  | .obj kvs => .ok (kvs.map (fun p => Json.str p.1))
  | _ => .error "TypeError: object is not iterable"

/-! ## Metadata model (`src/metadata.py`) -/

/-- `ColumnMetadata` dataclass.  `data_type` and `nullable` keep the raw
JSON value the loader stores (the Python fields are dynamically typed and
purely informational). -/
structure ColumnMetadata where
  name : String
  data_type : Option Json := none
  nullable : Json := Json.bool true
  is_primary_key : Bool := false

/-- Python `str.strip()`: drop leading and trailing whitespace.  (Python
strips a slightly larger Unicode whitespace class than `Char.isWhitespace`;
no input in this development uses the difference.) -/
def pyStrip (s : String) : String :=
  String.mk
    (((s.data.dropWhile Char.isWhitespace).reverse.dropWhile Char.isWhitespace).reverse)

/-- `d.get("name") or d.get("column_name")` (line 22 of `metadata.py`). -/
def resolveColumnName (d : List (String × Json)) : Option Json :=
  pyOr (jget d "name") (jget d "column_name")

/-- Error message of `ColumnMetadata.from_dict`. -/
def columnNameError : String :=
  "Column must have " ++ squote ++ "name" ++ squote ++ " or " ++ squote
    ++ "column_name" ++ squote

/-- `ColumnMetadata.from_dict`: resolve the name aliases with a truthy
`or`-chain, reject a falsy result, and store `str(name).strip()`.  A
non-dict entry fails where Python would raise looking up attributes. -/
def ColumnMetadata.from_dict (j : Json) : Except String ColumnMetadata :=
  match j with
  | .obj d =>
    match resolveColumnName d with
    | some v =>
      if pyJsonTruthy v then
        .ok { name := pyStrip (pyStr v)
              data_type := pyOr (jget d "data_type") (jget d "type")
              nullable := (jget d "nullable").getD (Json.bool true)
              is_primary_key := pyJsonTruthy ((jget d "is_primary_key").getD (Json.bool false)) }
      else .error columnNameError
    | none => .error columnNameError
  | _ => .error "TypeError: column entry is not a dict"

/-- `TableMetadata` dataclass, typed as its annotations declare
(`schema_name: str | None`, `primary_key_columns: list[str] | None`). -/
structure TableMetadata where
  table_name : String
  schema_name : Option String := none
  columns : List ColumnMetadata := []
  primary_key_columns : Option (List String) := none

/-- `qualified_name` property: `schema.table` when the schema is truthy
(`if self.schema_name:`), else the bare table name. -/
def TableMetadata.qualified_name (t : TableMetadata) : String :=
  match t.schema_name with
  | some s => if s = "" then t.table_name else s ++ "." ++ t.table_name
  | none => t.table_name

/-- `column_names` property. -/
def TableMetadata.column_names (t : TableMetadata) : List String :=
  t.columns.map ColumnMetadata.name

/-- `key_columns` property (lines 49–57 of `metadata.py`).  The guard
`if self.primary_key_columns:` is Python truthiness: it takes branch (a)
only for a non-`None`, non-empty list. -/
def TableMetadata.key_columns (t : TableMetadata) : List String :=
  match t.primary_key_columns with
  | some (p :: ps) => (p :: ps).filter (fun c => t.column_names.contains c)
  | _ =>
    let pk_from_cols := (t.columns.filter ColumnMetadata.is_primary_key).map ColumnMetadata.name
    if !pk_from_cols.isEmpty then pk_from_cols
    else t.column_names.take 1

/-- `d.get("table_name") or d.get("table") or d.get("name")`
(line 65 of `metadata.py`). -/
def resolveTableName (d : List (String × Json)) : Option Json :=
  pyOr (jget d "table_name") (pyOr (jget d "table") (jget d "name"))

/-- Error message of `TableMetadata.from_dict` for a missing table name. -/
def tableNameError : String :=
  "Table must have " ++ squote ++ "table_name" ++ squote ++ ", " ++ squote
    ++ "table" ++ squote ++ ", or " ++ squote ++ "name" ++ squote

/-- Lines 68–70 of `metadata.py`: the list of column dicts.  `columns`
defaults to `[]` when the key is absent; a falsy value together with a
present `column_names` key switches to wrapping each entry of
`column_names` into `{"name": n}`.  The chosen value is then iterated. -/
def columnsSource (d : List (String × Json)) : Except String (List Json) :=
  let cols := (jget d "columns").getD (Json.arr [])
  if !pyJsonTruthy cols && jhas d "column_names" then
    (pyIter ((jget d "column_names").getD Json.null)).map
      (fun ns => ns.map (fun n => Json.obj [("name", n)]))
  else pyIter cols

/-- The raw value the loader stores in `schema_name`
(`d.get("schema_name") or d.get("schema")`).  Python keeps the raw JSON
value, but every consumer reads it behind a truthiness guard or an
f-string `str()` conversion, so a falsy value is normalised to `none` and
a truthy one to its `str()` rendering — observationally equivalent. -/
def asSchemaName (v : Option Json) : Option String :=
  match v with
  | some w => if pyJsonTruthy w then some (pyStr w) else none
  | none => none

/-- The raw value the loader stores in `primary_key_columns`
(`d.get("primary_key") or d.get("primary_key_columns")`).  A falsy value
is normalised to `none` (truthiness is all `key_columns` checks before
iterating); a truthy array keeps its entries rendered with `str()` — a
non-string entry can only diverge from Python if its rendering collides
with a column name, which no input in this development has.  A truthy
non-array would make `key_columns` iterate it; it is kept as its
element-wise iteration where possible. -/
def asKeyList (v : Option Json) : Option (List String) :=
  match v with
  | some w =>
    if pyJsonTruthy w then
      match pyIter w with
      | .ok xs => some (xs.map pyStr)
      | .error _ => none
    else none
  | none => none

/-- `TableMetadata.from_dict` (lines 63–77 of `metadata.py`). -/
def TableMetadata.from_dict (d : List (String × Json)) : Except String TableMetadata :=
  match resolveTableName d with
  | some v =>
    if pyJsonTruthy v then
      match columnsSource d with
      | .ok colDicts =>
        match colDicts.mapM ColumnMetadata.from_dict with
        | .ok columns =>
          .ok { table_name := pyStrip (pyStr v)
                schema_name := asSchemaName (pyOr (jget d "schema_name") (jget d "schema"))
                columns := columns
                primary_key_columns := asKeyList (pyOr (jget d "primary_key") (jget d "primary_key_columns")) }
        | .error e => .error e
      | .error e => .error e
    else .error tableNameError
  | none => .error tableNameError

/-- Error message of `TableMetadata.load` when the document has neither
`columns` nor `column_names`. -/
def missingColumnsError : String :=
  "Metadata must contain " ++ squote ++ "columns" ++ squote ++ " or "
    ++ squote ++ "column_names" ++ squote

/-- `TableMetadata.load` after `json.loads` (lines 86–91 of `metadata.py`):
a bare array becomes `{"table_name": "table", "columns": data}`; an object
must contain `columns` or `column_names`; file I/O is outside the model. -/
def TableMetadata.loadData (data : Json) : Except String TableMetadata :=
  match data with
  | .arr items =>
    TableMetadata.from_dict [("table_name", Json.str "table"), ("columns", Json.arr items)]
  | .obj d =>
    if !jhas d "columns" && !jhas d "column_names" then
      .error missingColumnsError
    else TableMetadata.from_dict d
  | _ => .error "TypeError: argument of type is not a dict"

/-! ## Comparison agent (`src/comparison_agent.py`) -/

/-- `align_columns` (lines 8–26): with `use_intersection` the source's
column names filtered by membership in `common = src_names & tgt_names`,
otherwise the source's column names unchanged. -/
def align_columns (source target : TableMetadata) (use_intersection : Bool) : List String :=
  if use_intersection then
    source.column_names.filter
      (fun c => source.column_names.contains c && target.column_names.contains c)
  else source.column_names

/-- `quote_identifier` (lines 29–37). -/
def quote_identifier (name : String) (dialect : String) : String :=
  if dialect = "ansi" ∨ dialect = "ansi_quoted" then
    if dialect = "ansi_quoted" then "\"" ++ name ++ "\"" else name
  else if dialect = "sqlserver" ∨ dialect = "mssql" then
    "[" ++ name ++ "]"
  else if dialect = "mysql" then
    String.singleton (Char.ofNat 96) ++ name ++ String.singleton (Char.ofNat 96)
  else name

/-- The per-identifier quote function `build_select` builds
(lines 48–52). -/
def selectQuote (dialect : String) (use_quoted_identifiers : Bool) (c : String) : String :=
  if use_quoted_identifiers then quote_identifier c "ansi_quoted"
  else quote_identifier c dialect

/-- The FROM-clause table reference of `build_select` (lines 53–57).  Both
special cases fire only when `table.schema_name` is truthy (non-`None`,
non-empty); the schema check is hoisted out of the two Python `and`
conditions. -/
def tableRef (table : TableMetadata) (dialect : String) (use_quoted_identifiers : Bool) : String :=
  match table.schema_name with
  | some s =>
    if s = "" then table.qualified_name
    else if use_quoted_identifiers then
      "\"" ++ s ++ "\".\"" ++ table.table_name ++ "\""
    else if dialect = "sqlserver" then
      "[" ++ s ++ "].[" ++ table.table_name ++ "]"
    else table.qualified_name
  | none => table.qualified_name

/-- `build_select` (lines 40–64).  `order_by_columns=None` and an empty
list are both falsy, so only a non-empty list emits an ORDER BY clause. -/
def build_select (table : TableMetadata) (columns : List String)
    (order_by_columns : Option (List String)) (dialect : String)
    (use_quoted_identifiers : Bool) : String :=
  let select_list := String.intercalate ", " (columns.map (selectQuote dialect use_quoted_identifiers))
  let sql := "SELECT " ++ select_list ++ "\nFROM " ++ tableRef table dialect use_quoted_identifiers
  match order_by_columns with
  | some (o :: os) =>
    sql ++ "\nORDER BY "
      ++ String.intercalate ", " (((o :: os)).map (selectQuote dialect use_quoted_identifiers))
  | _ => sql

/-- Error message of `generate_comparison_selects` for an empty aligned
column list (lines 85–88), with the f-string's `repr` of both lists. -/
def noCommonColumnsError (source_metadata target_metadata : TableMetadata) : String :=
  "No common columns between source and target. Source: "
    ++ pyReprStrList source_metadata.column_names
    ++ ", Target: " ++ pyReprStrList target_metadata.column_names

/-- `generate_comparison_selects` (lines 67–113). -/
def generate_comparison_selects (source_metadata target_metadata : TableMetadata)
    (use_intersection order_by_keys : Bool) (dialect : String)
    (use_quoted_identifiers : Bool) : Except String (String × String) :=
  let columns := align_columns source_metadata target_metadata use_intersection
  if columns.isEmpty then
    .error (noCommonColumnsError source_metadata target_metadata)
  else
    let order_cols : Option (List String) :=
      if order_by_keys then
        let src_keys := source_metadata.key_columns
        let tgt_keys := target_metadata.key_columns
        let oc := (if src_keys.isEmpty then tgt_keys else src_keys).filter
          (fun k => columns.contains k)
        some (if oc.isEmpty && !columns.isEmpty then columns.take 1 else oc)
      else none
    .ok (build_select source_metadata columns order_cols dialect use_quoted_identifiers,
         build_select target_metadata columns order_cols dialect use_quoted_identifiers)

/-! ## Spec-side definitions

These follow the specification's words, to be compared with the
definitions translated from the source. -/

/-- The ORDER BY key list as the spec describes it: `source.key_columns`,
or `target.key_columns` if source's is empty; filtered to names present in
the aligned column list preserving the key list's order; if that is empty
and an aligned column exists, the single first aligned column. -/
def specOrderKeys (src tgt : TableMetadata) (cols : List String) : List String :=
  let chosen := if src.key_columns = [] then tgt.key_columns else src.key_columns
  let filtered := chosen.filter (fun k => cols.contains k)
  if filtered = [] ∧ cols ≠ [] then cols.take 1 else filtered

/-- First-present-truthy-wins lookup over candidate keys: the value of the
first candidate key whose value is truthy. -/
def firstTruthyValue (d : List (String × Json)) : List String → Option Json
  | [] => none
  | k :: ks =>
    match jget d k with
    | some v => if pyJsonTruthy v then some v else firstTruthyValue d ks
    | none => firstTruthyValue d ks

/-! ## Helper lemmas -/

/-- A key found by `jget` is reported present by `jhas`. -/
theorem jhas_of_jget_some {d : List (String × Json)} {k : String} :
    ∀ {v : Json}, jget d k = some v → jhas d k = true := by
  induction d with
  | nil => intro v h; simp [jget] at h
  | cons p rest ih =>
    intro v h
    rw [jget] at h
    rw [jhas, List.any_cons]
    cases hr : jget rest k with
    | some w =>
      have hrest := ih hr
      rw [jhas] at hrest
      simp [hrest]
    | none =>
      rw [hr] at h
      by_cases hk : p.1 = k
      · simp [hk]
      · simp [hk] at h

/-! ## Claims -/

/-- **C1.** `align_columns` with `use_intersection=true` returns exactly
the source's column names, in source order, filtered to those that also
appear among the target's column names (exact string comparison); with
`use_intersection=false` it returns the source's full column name list
unchanged, independent of the target. -/
theorem align_columns_intersection_policy (source target : TableMetadata) :
    align_columns source target true
      = source.column_names.filter (fun c => target.column_names.contains c)
    ∧ align_columns source target false = source.column_names := by
  refine ⟨?_, rfl⟩
  show source.column_names.filter _ = _
  apply List.filter_congr
  intro c hc
  simp [List.elem_eq_true_of_mem hc]
  exact fun _ => hc

/-- A table whose explicit `primary_key_columns` is present but empty,
while one of its columns carries the `is_primary_key` flag. -/
def emptyPkTable : TableMetadata :=
  { table_name := "t"
    columns := [{ name := "a", is_primary_key := true }]
    primary_key_columns := some [] }

/-- **C4 (counterexample).** The claim's precedence (a) — "if
`primary_key_columns` is provided, the entries of `primary_key_columns`
that exist in `column_names`" — fails when the provided list is empty:
the filtered explicit list is `[]`, but `key_columns` is `["a"]`, taken
from the `is_primary_key` flag instead. -/
theorem key_columns_provided_empty_counterexample :
    emptyPkTable.primary_key_columns = some []
    ∧ List.filter (fun c => emptyPkTable.column_names.contains c) ([] : List String) = []
    ∧ emptyPkTable.key_columns = ["a"] :=
  ⟨rfl, rfl, rfl⟩

/-- **C4 (amended).** `key_columns` precedence: (a) if
`primary_key_columns` is provided *and non-empty*, the entries of the
explicit list that exist in `column_names`, in the explicit list's order;
else (b) the names of columns whose `is_primary_key` flag is true, in
column order; else (c) the single first column name if any columns exist;
else the empty list.  In particular a one-column table with no
primary-key information yields that column's name. -/
theorem key_columns_precedence (t : TableMetadata) :
    (∀ p ps, t.primary_key_columns = some (p :: ps) →
      t.key_columns = (p :: ps).filter (fun c => t.column_names.contains c))
    ∧ (∀ _ : t.primary_key_columns = none ∨ t.primary_key_columns = some [],
      ((t.columns.filter ColumnMetadata.is_primary_key).map ColumnMetadata.name ≠ [] →
        t.key_columns = (t.columns.filter ColumnMetadata.is_primary_key).map ColumnMetadata.name)
      ∧ ((t.columns.filter ColumnMetadata.is_primary_key).map ColumnMetadata.name = [] →
        t.key_columns = t.column_names.take 1))
    ∧ (∀ c, t.columns = [c] → t.primary_key_columns = none →
      c.is_primary_key = false → t.key_columns = [c.name]) := by
  refine ⟨?_, ?_, ?_⟩
  · intro p ps hp
    rw [TableMetadata.key_columns, hp]
  · intro hnone
    constructor
    · intro hpk
      rcases hnone with h | h <;>
        · rw [TableMetadata.key_columns, h]
          simp only []
          rw [if_pos (by simpa using hpk)]
    · intro hpk
      rcases hnone with h | h <;>
        · rw [TableMetadata.key_columns, h]
          simp only []
          rw [if_neg (by simpa using hpk)]
  · intro c hc hp hflag
    rw [TableMetadata.key_columns, hp]
    simp [hc, hflag, TableMetadata.column_names]

/-- Concrete instance of C4's amended precedence: an explicit key list
filtered to existing columns, and the one-column fallback. -/
theorem key_columns_precedence_witness :
    (({ table_name := "w"
        columns := [{ name := "a" }, { name := "b" }]
        primary_key_columns := some ["b", "z"] } : TableMetadata).primary_key_columns
      = some ["b", "z"])
    ∧ ({ table_name := "w"
         columns := [{ name := "a" }, { name := "b" }]
         primary_key_columns := some ["b", "z"] } : TableMetadata).key_columns = ["b"]
    ∧ ({ table_name := "one", columns := [{ name := "only" }] } : TableMetadata).columns
      = [{ name := "only" }]
    ∧ ({ table_name := "one", columns := [{ name := "only" }] } : TableMetadata).key_columns
      = ["only"] := by
  refine ⟨rfl, ?_, rfl, ?_⟩
  · rw [(key_columns_precedence _).1 "b" ["z"] rfl]; rfl
  · rw [(key_columns_precedence _).2.2 { name := "only" } rfl rfl rfl]

/-- **C5.** The FROM-clause table reference of `build_select` renders as
`"schema"."table"` when the quoted-identifiers toggle is set and a schema
is present; as the plain table name when the toggle is set and no schema
is present (table-only references are unaffected by the toggle); as
`[schema].[table]` when the toggle is unset, the dialect is `sqlserver`,
and a schema is present; and as the plain unquoted `schema.table` (or
bare table name) in every other case — in particular for `mssql` and
`mysql`, whose columns are dialect-quoted.  `build_select` emits
`"\nFROM " ++ tableRef table dialect uq` by definition. -/
theorem from_clause_table_reference (t : TableMetadata) (dialect : String) :
    (∀ s, t.schema_name = some s → s ≠ "" →
      tableRef t dialect true = "\"" ++ s ++ "\".\"" ++ t.table_name ++ "\""
      ∧ tableRef t "sqlserver" false = "[" ++ s ++ "].[" ++ t.table_name ++ "]"
      ∧ (dialect ≠ "sqlserver" →
        tableRef t dialect false = s ++ "." ++ t.table_name))
    ∧ (t.schema_name = none →
      tableRef t dialect true = t.table_name
      ∧ tableRef t dialect false = t.table_name) := by
  constructor
  · intro s hs hne
    refine ⟨?_, ?_, ?_⟩
    · rw [tableRef, hs]
      simp [hne]
    · rw [tableRef, hs]
      simp [hne]
    · intro hd
      rw [tableRef, hs]
      simp [hne, hd, TableMetadata.qualified_name, hs]
  · intro hs
    rw [tableRef, tableRef, hs]
    simp [TableMetadata.qualified_name, hs]

/-- Concrete instance of C5: a schema-qualified table under each of the
four rendering cases, plus a schema-less table under the toggle. -/
theorem from_clause_table_reference_witness :
    (({ table_name := "c", schema_name := some "dbo" } : TableMetadata).schema_name
        = some "dbo")
    ∧ "dbo" ≠ ""
    ∧ tableRef { table_name := "c", schema_name := some "dbo" } "mysql" true
        = "\"dbo\".\"c\""
    ∧ tableRef { table_name := "c", schema_name := some "dbo" } "sqlserver" false
        = "[dbo].[c]"
    ∧ tableRef { table_name := "c", schema_name := some "dbo" } "mysql" false
        = "dbo.c"
    ∧ tableRef { table_name := "bare" } "mysql" true = "bare" := by
  have h := from_clause_table_reference
    { table_name := "c", schema_name := some "dbo" } "mysql"
  have h1 := (h.1 "dbo" rfl (by decide)).1
  have h2 := (h.1 "dbo" rfl (by decide)).2.1
  have h3 := (h.1 "dbo" rfl (by decide)).2.2 (by decide)
  have h4 := ((from_clause_table_reference { table_name := "bare" } "mysql").2 rfl).1
  exact ⟨rfl, by decide, h1, h2, h3, h4⟩

/-- **C3.** `generate_comparison_selects` fails exactly when the aligned
column list is empty; the error message carries both tables' full column
lists (rendered as Python does); with a non-empty aligned list generation
always returns two SQL strings — the only failure in the generation
path. -/
theorem generation_failure_characterisation (src tgt : TableMetadata)
    (ui ob : Bool) (dialect : String) (uq : Bool) :
    (align_columns src tgt ui = [] →
      generate_comparison_selects src tgt ui ob dialect uq
        = .error ("No common columns between source and target. Source: "
            ++ pyReprStrList src.column_names
            ++ ", Target: " ++ pyReprStrList tgt.column_names))
    ∧ (align_columns src tgt ui ≠ [] →
      ∃ s t, generate_comparison_selects src tgt ui ob dialect uq = .ok (s, t)) := by
  constructor
  · intro h
    rw [generate_comparison_selects]
    simp [h, noCommonColumnsError]
  · intro h
    rw [generate_comparison_selects]
    rw [if_neg (by simpa [List.isEmpty_iff] using h)]
    exact ⟨_, _, rfl⟩

/-- Concrete instance of C3: the spec's boundary example, source columns
`a`, `b` against target columns `c`, `d`, fails with both full lists in
the message; overlapping tables generate successfully. -/
theorem generation_failure_characterisation_witness :
    (align_columns { table_name := "s", columns := [{ name := "a" }, { name := "b" }] }
        { table_name := "t", columns := [{ name := "c" }, { name := "d" }] } true = [])
    ∧ generate_comparison_selects
        { table_name := "s", columns := [{ name := "a" }, { name := "b" }] }
        { table_name := "t", columns := [{ name := "c" }, { name := "d" }] }
        true true "ansi" false
      = .error ("No common columns between source and target. Source: "
          ++ pyReprStrList ["a", "b"] ++ ", Target: " ++ pyReprStrList ["c", "d"])
    ∧ (align_columns { table_name := "s", columns := [{ name := "a" }, { name := "b" }] }
        { table_name := "t", columns := [{ name := "a" }] } true ≠ [])
    ∧ (∃ s t, generate_comparison_selects
        { table_name := "s", columns := [{ name := "a" }, { name := "b" }] }
        { table_name := "t", columns := [{ name := "a" }] }
        true true "ansi" false = .ok (s, t)) := by
  refine ⟨rfl, ?_, by decide, ?_⟩
  · exact (generation_failure_characterisation _ _ true true "ansi" false).1 rfl
  · exact (generation_failure_characterisation _ _ true true "ansi" false).2 (by decide)

/-- The ORDER BY list computed by `generate_comparison_selects` equals
the spec-side `specOrderKeys` whenever the aligned list is non-empty. -/
theorem order_cols_eq_specOrderKeys (src tgt : TableMetadata) (cols : List String)
    (h : cols ≠ []) :
    (if ((if src.key_columns.isEmpty then tgt.key_columns else src.key_columns).filter
          (fun k => cols.contains k)).isEmpty && !cols.isEmpty
      then cols.take 1
      else (if src.key_columns.isEmpty then tgt.key_columns else src.key_columns).filter
          (fun k => cols.contains k))
    = specOrderKeys src tgt cols := by
  rw [specOrderKeys]
  by_cases h1 : src.key_columns = [] <;>
    by_cases h2 : ((if src.key_columns.isEmpty then tgt.key_columns
        else src.key_columns).filter (fun k => cols.contains k)) = [] <;>
    simp_all [List.isEmpty_iff]

/-- **C2.** For every successful generation with `order_by_keys=true`, the
ORDER BY list is: `source.key_columns`, or `target.key_columns` if
source's is empty, filtered to names in the aligned column list in the key
list's order; if that filter is empty (and an aligned column exists) the
single first aligned column.  With `order_by_keys=false` both statements
are rendered without any ORDER BY clause — the rendering is exactly
`SELECT <cols>\nFROM <ref>`. -/
theorem order_by_key_selection (src tgt : TableMetadata) (ui : Bool)
    (dialect : String) (uq : Bool) (h : align_columns src tgt ui ≠ []) :
    generate_comparison_selects src tgt ui true dialect uq
      = .ok (build_select src (align_columns src tgt ui)
              (some (specOrderKeys src tgt (align_columns src tgt ui))) dialect uq,
             build_select tgt (align_columns src tgt ui)
              (some (specOrderKeys src tgt (align_columns src tgt ui))) dialect uq)
    ∧ generate_comparison_selects src tgt ui false dialect uq
      = .ok (build_select src (align_columns src tgt ui) none dialect uq,
             build_select tgt (align_columns src tgt ui) none dialect uq)
    ∧ (∀ tbl cols, build_select tbl cols none dialect uq
      = "SELECT " ++ String.intercalate ", " (cols.map (selectQuote dialect uq))
        ++ "\nFROM " ++ tableRef tbl dialect uq) := by
  have hb : (align_columns src tgt ui).isEmpty = false := by
    simpa [List.isEmpty_iff] using h
  refine ⟨?_, ?_, ?_⟩
  · rw [generate_comparison_selects, if_neg (by simp [hb])]
    simp only [reduceIte]
    rw [order_cols_eq_specOrderKeys src tgt _ h]
  · rw [generate_comparison_selects]
    simp only [hb, Bool.false_eq_true, if_false]
  · intro tbl cols
    rfl

/-- Concrete instance of C2: the spec's §8 scenario — source columns
`id` (primary key), `name`, `email`; target columns `id`, `name`. -/
theorem order_by_key_selection_witness :
    (align_columns
        { table_name := "s", columns := [{ name := "id", is_primary_key := true },
            { name := "name" }, { name := "email" }] }
        { table_name := "t", columns := [{ name := "id" }, { name := "name" }] }
        true ≠ [])
    ∧ generate_comparison_selects
        { table_name := "s", columns := [{ name := "id", is_primary_key := true },
            { name := "name" }, { name := "email" }] }
        { table_name := "t", columns := [{ name := "id" }, { name := "name" }] }
        true true "ansi" false
      = .ok ("SELECT id, name\nFROM s\nORDER BY id", "SELECT id, name\nFROM t\nORDER BY id")
    ∧ generate_comparison_selects
        { table_name := "s", columns := [{ name := "id", is_primary_key := true },
            { name := "name" }, { name := "email" }] }
        { table_name := "t", columns := [{ name := "id" }, { name := "name" }] }
        true false "ansi" false
      = .ok ("SELECT id, name\nFROM s", "SELECT id, name\nFROM t") := by
  have hkey := order_by_key_selection
    { table_name := "s", columns := [{ name := "id", is_primary_key := true },
        { name := "name" }, { name := "email" }] }
    { table_name := "t", columns := [{ name := "id" }, { name := "name" }] }
    true "ansi" false (by decide)
  exact ⟨by decide, hkey.1, hkey.2.1⟩

/-- The ORDER BY suffix `build_select` appends: empty for `None` or an
empty list, `"\nORDER BY ..."` for a non-empty list. -/
def orderSuffix (order_by_columns : Option (List String)) (dialect : String)
    (use_quoted_identifiers : Bool) : String :=
  match order_by_columns with
  | some (o :: os) =>
    "\nORDER BY "
      ++ String.intercalate ", " (((o :: os)).map (selectQuote dialect use_quoted_identifiers))
  | _ => ""

/-- `build_select` decomposed into its four byte segments. -/
theorem build_select_decomp (table : TableMetadata) (columns : List String)
    (ob : Option (List String)) (dialect : String) (uq : Bool) :
    build_select table columns ob dialect uq
      = "SELECT " ++ String.intercalate ", " (columns.map (selectQuote dialect uq))
        ++ "\nFROM " ++ tableRef table dialect uq ++ orderSuffix ob dialect uq := by
  cases ob with
  | none => simp [build_select, orderSuffix]
  | some l =>
    cases l with
    | nil => simp [build_select, orderSuffix]
    | cons o os => simp [build_select, orderSuffix, String.append_assoc]

/-- **C6.** The two SQL strings of a successful generation are
order-symmetric: both are `SELECT <sel>\nFROM <ref><obp>` with a
byte-identical select list `<sel>` and byte-identical ORDER BY suffix
`<obp>`, differing only in the FROM table reference. -/
theorem order_symmetric_rendering (src tgt : TableMetadata) (ui ob : Bool)
    (dialect : String) (uq : Bool) (s t : String)
    (h : generate_comparison_selects src tgt ui ob dialect uq = .ok (s, t)) :
    ∃ sel obp,
      s = "SELECT " ++ sel ++ "\nFROM " ++ tableRef src dialect uq ++ obp
      ∧ t = "SELECT " ++ sel ++ "\nFROM " ++ tableRef tgt dialect uq ++ obp := by
  rw [generate_comparison_selects] at h
  by_cases hc : (align_columns src tgt ui).isEmpty = true
  · rw [if_pos hc] at h
    exact absurd h (by simp)
  · rw [if_neg hc] at h
    simp only [Except.ok.injEq, Prod.mk.injEq] at h
    obtain ⟨hs, ht⟩ := h
    rw [build_select_decomp] at hs ht
    exact ⟨_, _, hs.symm, ht.symm⟩

/-- Concrete instance of C6: the generated pair for the spec's §8 scenario
decomposes into identical SELECT and ORDER BY segments. -/
theorem order_symmetric_rendering_witness :
    generate_comparison_selects
      { table_name := "s", columns := [{ name := "id", is_primary_key := true },
          { name := "name" }, { name := "email" }] }
      { table_name := "t", columns := [{ name := "id" }, { name := "name" }] }
      true true "ansi" false
      = .ok ("SELECT id, name\nFROM s\nORDER BY id", "SELECT id, name\nFROM t\nORDER BY id")
    ∧ (∃ sel obp,
        "SELECT id, name\nFROM s\nORDER BY id"
          = "SELECT " ++ sel ++ "\nFROM "
            ++ tableRef { table_name := "s", columns := [{ name := "id", is_primary_key := true },
                { name := "name" }, { name := "email" }] } "ansi" false ++ obp
        ∧ "SELECT id, name\nFROM t\nORDER BY id"
          = "SELECT " ++ sel ++ "\nFROM "
            ++ tableRef { table_name := "t", columns := [{ name := "id" }, { name := "name" }] }
              "ansi" false ++ obp) := by
  constructor
  · rfl
  · exact order_symmetric_rendering _ _ true true "ansi" false _ _ rfl

/-- A truthy `or`-chain over candidate keys, built right-to-left exactly
as the source nests `pyOr` (the last candidate is kept raw, as Python's
`a or b` returns its last operand even when falsy). -/
def pyOrChain (d : List (String × Json)) : List String → Option Json
  | [] => none
  | [k] => jget d k
  | k :: ks => pyOr (jget d k) (pyOrChain d ks)

/-- A truthy `or`-chain agrees with the first-present-truthy-wins lookup:
when some candidate is truthy the chain returns the first such value, and
when none is the chain's result is falsy. -/
theorem firstTruthy_pyOrChain (d : List (String × Json)) :
    ∀ ks : List String,
      (∀ v, firstTruthyValue d ks = some v →
        pyOrChain d ks = some v ∧ pyJsonTruthy v = true)
      ∧ (firstTruthyValue d ks = none → optTruthy (pyOrChain d ks) = false) := by
  intro ks
  induction ks with
  | nil => exact ⟨fun v h => by simp [firstTruthyValue] at h, fun _ => rfl⟩
  | cons k ks ih =>
    constructor
    · intro v h
      rw [firstTruthyValue] at h
      cases hk : jget d k with
      | some w =>
        simp only [hk] at h
        by_cases ht : pyJsonTruthy w
        · rw [if_pos ht] at h
          injection h with h
          subst h
          cases ks with
          | nil => exact ⟨by simp [pyOrChain, hk], ht⟩
          | cons k2 ks2 => exact ⟨by simp [pyOrChain, pyOr, hk, ht], ht⟩
        · rw [if_neg ht] at h
          obtain ⟨h1, h2⟩ := ih.1 v h
          cases ks with
          | nil => simp [firstTruthyValue] at h
          | cons k2 ks2 => exact ⟨by simp [pyOrChain, pyOr, hk, ht, h1], h2⟩
      | none =>
        simp only [hk] at h
        obtain ⟨h1, h2⟩ := ih.1 v h
        cases ks with
        | nil => simp [firstTruthyValue] at h
        | cons k2 ks2 => exact ⟨by simp [pyOrChain, pyOr, hk, h1], h2⟩
    · intro h
      rw [firstTruthyValue] at h
      cases hk : jget d k with
      | some w =>
        simp only [hk] at h
        by_cases ht : pyJsonTruthy w
        · rw [if_pos ht] at h; exact absurd h (by simp)
        · rw [if_neg ht] at h
          cases ks with
          | nil => simp [pyOrChain, hk, optTruthy, ht]
          | cons k2 ks2 =>
            have := ih.2 h
            simp [pyOrChain, pyOr, hk, ht, this]
      | none =>
        simp only [hk] at h
        cases ks with
        | nil => simp [pyOrChain, hk, optTruthy]
        | cons k2 ks2 =>
          have := ih.2 h
          simp [pyOrChain, pyOr, hk, this]


/-- Document whose `table_name` and column `name` fields are present but
empty strings, with later truthy aliases. -/
def aliasDoc : List (String × Json) :=
  [("table_name", Json.str ""), ("table", Json.str "t2"), ("name", Json.str "t3"),
   ("columns", Json.arr [Json.obj [("name", Json.str ""), ("column_name", Json.str "c")]])]

/-- **C8 (counterexample).** `table_name` is present (with value `""`) yet
the loaded table name is `"t2"`, not `""`: a present-but-empty first
candidate does *not* win.  The same holds for a column's `name` alias
against `column_name`. -/
theorem alias_empty_string_counterexample :
    jget aliasDoc "table_name" = some (Json.str "")
    ∧ (TableMetadata.from_dict aliasDoc).map TableMetadata.table_name = .ok "t2"
    ∧ "t2" ≠ ""
    ∧ jget [("name", Json.str ""), ("column_name", Json.str "c")] "name"
        = some (Json.str "")
    ∧ (ColumnMetadata.from_dict
        (Json.obj [("name", Json.str ""), ("column_name", Json.str "c")])).map
          ColumnMetadata.name = .ok "c"
    ∧ "c" ≠ "" :=
  ⟨rfl, rfl, by decide, rfl, rfl, by decide⟩

/-- **C8 (amended).** Field aliasing is an ordered lookup in which the
first candidate whose value is *truthy* wins; a present-but-falsy value
(such as the empty string) is skipped in favour of later candidates.
When some candidate is truthy its value, rendered with `str()` and
trimmed, becomes the table's (resp. column's) stored name; when no
candidate is truthy the resolved value is falsy (and loading fails). -/
theorem field_alias_first_truthy (d : List (String × Json)) :
    (∀ v, firstTruthyValue d ["table_name", "table", "name"] = some v →
      resolveTableName d = some v
      ∧ ∀ r, TableMetadata.from_dict d = .ok r → r.table_name = pyStrip (pyStr v))
    ∧ (firstTruthyValue d ["table_name", "table", "name"] = none →
      optTruthy (resolveTableName d) = false)
    ∧ (∀ v, firstTruthyValue d ["name", "column_name"] = some v →
      resolveColumnName d = some v
      ∧ ∀ c, ColumnMetadata.from_dict (Json.obj d) = .ok c → c.name = pyStrip (pyStr v))
    ∧ (firstTruthyValue d ["name", "column_name"] = none →
      optTruthy (resolveColumnName d) = false) := by
  refine ⟨?_, ?_, ?_, ?_⟩
  · intro v h
    obtain ⟨h1, h2⟩ := (firstTruthy_pyOrChain d ["table_name", "table", "name"]).1 v h
    have hres : resolveTableName d = some v := h1
    refine ⟨hres, ?_⟩
    intro r hr
    rw [TableMetadata.from_dict] at hr
    simp only [hres, h2, if_true] at hr
    split at hr
    · split at hr
      · injection hr with hr
        rw [← hr]
      · exact absurd hr (by simp)
    · exact absurd hr (by simp)
  · intro h
    exact (firstTruthy_pyOrChain d ["table_name", "table", "name"]).2 h
  · intro v h
    obtain ⟨h1, h2⟩ := (firstTruthy_pyOrChain d ["name", "column_name"]).1 v h
    have hres : resolveColumnName d = some v := h1
    refine ⟨hres, ?_⟩
    intro c hc
    rw [ColumnMetadata.from_dict] at hc
    simp only [hres, h2, if_true] at hc
    injection hc with hc
    rw [← hc]
  · intro h
    exact (firstTruthy_pyOrChain d ["name", "column_name"]).2 h

/-- Concrete instance of C8's amended aliasing: in `aliasDoc` the first
truthy table-name candidate is `table` with `"t2"`, and the first truthy
column-name candidate is `column_name` with `"c"`. -/
theorem field_alias_first_truthy_witness :
    firstTruthyValue aliasDoc ["table_name", "table", "name"] = some (Json.str "t2")
    ∧ resolveTableName aliasDoc = some (Json.str "t2")
    ∧ TableMetadata.from_dict aliasDoc
        = .ok { table_name := "t2", columns := [{ name := "c" }] }
    ∧ ({ table_name := "t2", columns := [{ name := "c" }] } : TableMetadata).table_name
        = pyStrip (pyStr (Json.str "t2")) := by
  have h := (field_alias_first_truthy aliasDoc).1 (Json.str "t2") rfl
  exact ⟨rfl, h.1, rfl, h.2 _ rfl⟩

/-- Document whose only column has a whitespace-only `name`. -/
def whitespaceNameDoc : Json :=
  Json.obj [("table_name", Json.str "t"),
    ("columns", Json.arr [Json.obj [("name", Json.str " ")]])]

/-- **C9 (counterexample).** Loading a column whose `name` is the
whitespace-only string `" "` succeeds — the truthiness check sees a
non-empty string — and stores the *empty* name `""` after stripping, so a
loaded column name need not be non-empty. -/
theorem whitespace_only_name_counterexample :
    (TableMetadata.loadData whitespaceNameDoc).map TableMetadata.column_names
      = .ok [""] := rfl

/-- **C9 (amended).** Every loaded column's stored name is the resolved
input name rendered with `str()` and stripped of surrounding whitespace —
possibly empty, when the input was whitespace-only — and a column entry
that lacks both name aliases fails with the malformed-input error. -/
theorem column_name_stripped (d : List (String × Json)) :
    (∀ c, ColumnMetadata.from_dict (Json.obj d) = .ok c →
      ∃ v, resolveColumnName d = some v ∧ pyJsonTruthy v = true
        ∧ c.name = pyStrip (pyStr v))
    ∧ (jget d "name" = none → jget d "column_name" = none →
      ColumnMetadata.from_dict (Json.obj d) = .error columnNameError) := by
  constructor
  · intro c hc
    rw [ColumnMetadata.from_dict] at hc
    cases hres : resolveColumnName d with
    | none => simp only [hres] at hc; exact absurd hc (by simp)
    | some v =>
      simp only [hres] at hc
      by_cases ht : pyJsonTruthy v
      · rw [if_pos ht] at hc
        injection hc with hc
        exact ⟨v, rfl, ht, by rw [← hc]⟩
      · rw [if_neg ht] at hc
        exact absurd hc (by simp)
  · intro h1 h2
    rw [ColumnMetadata.from_dict]
    simp [resolveColumnName, pyOr, h1, h2]

/-- Concrete instance of C9's amended statement: `" x "` is stored as
`"x"`, and an entry with neither alias fails. -/
theorem column_name_stripped_witness :
    ColumnMetadata.from_dict (Json.obj [("name", Json.str " x ")])
      = .ok { name := "x" }
    ∧ (∃ v, resolveColumnName [("name", Json.str " x ")] = some v
        ∧ pyJsonTruthy v = true
        ∧ ({ name := "x" } : ColumnMetadata).name = pyStrip (pyStr v))
    ∧ jget [("data_type", Json.str "int")] "name" = none
    ∧ jget [("data_type", Json.str "int")] "column_name" = none
    ∧ ColumnMetadata.from_dict (Json.obj [("data_type", Json.str "int")])
        = .error columnNameError := by
  refine ⟨rfl, ?_, rfl, rfl, ?_⟩
  · exact (column_name_stripped [("name", Json.str " x ")]).1 { name := "x" } rfl
  · exact (column_name_stripped [("data_type", Json.str "int")]).2 rfl rfl

/-- Document with a table name and a `primary_key` array but neither
`columns` nor `column_names`. -/
def pkOnlyDoc : Json :=
  Json.obj [("table_name", Json.str "t"), ("primary_key", Json.arr [Json.str "a"])]

/-- **C7 (counterexample).** Loading an object with a table-name field and
a `primary_key` array but neither `columns` nor `column_names` does *not*
succeed: it raises the malformed-input error. -/
theorem primary_key_only_load_counterexample :
    TableMetadata.loadData pkOnlyDoc = .error missingColumnsError := rfl

/-- **C7 (amended).** An object-form document lacking both `columns` and
`column_names` fails with the malformed-input error, regardless of any
`primary_key`/`primary_key_columns` array: a primary-key array is not
accepted as a columns source. -/
theorem load_requires_columns_source (d : List (String × Json))
    (h1 : jhas d "columns" = false) (h2 : jhas d "column_names" = false) :
    TableMetadata.loadData (Json.obj d) = .error missingColumnsError := by
  rw [TableMetadata.loadData]
  simp [h1, h2]

/-- Concrete instance of C7's amended statement, at the claim's own
document shape. -/
theorem load_requires_columns_source_witness :
    jhas [("table_name", Json.str "t"),
      ("primary_key_columns", Json.arr [Json.str "a"])] "columns" = false
    ∧ jhas [("table_name", Json.str "t"),
      ("primary_key_columns", Json.arr [Json.str "a"])] "column_names" = false
    ∧ TableMetadata.loadData (Json.obj [("table_name", Json.str "t"),
        ("primary_key_columns", Json.arr [Json.str "a"])])
      = .error missingColumnsError :=
  ⟨rfl, rfl, load_requires_columns_source _ rfl rfl⟩

/-- **C10.** When an object supplies both `columns` and `column_names`:
a non-empty `columns` array wins and `column_names` is ignored (the
column dicts are exactly the array's entries, whatever `column_names`
holds); an empty `columns` array together with a present `column_names`
array yields one `{"name": n}` dict per listed name, which
`TableMetadata.from_dict` then parses into the table's columns. -/
theorem columns_beats_column_names (d : List (String × Json)) (c : Json)
    (cs ns : List Json) :
    (jget d "columns" = some (Json.arr (c :: cs)) →
      columnsSource d = .ok (c :: cs))
    ∧ (jget d "columns" = some (Json.arr []) →
      jget d "column_names" = some (Json.arr ns) →
      columnsSource d = .ok (ns.map (fun n => Json.obj [("name", n)]))) := by
  constructor
  · intro h
    rw [columnsSource]
    simp [h, pyJsonTruthy, pyIter]
  · intro h hn
    rw [columnsSource]
    simp [h, pyJsonTruthy, jhas_of_jget_some hn, hn, pyIter, Except.map]

/-- Concrete instance of C10: a non-empty `columns` array wins over a
present `column_names`; an empty one defers to `column_names`. -/
theorem columns_beats_column_names_witness :
    jget [("columns", Json.arr [Json.obj [("name", Json.str "a")]]),
        ("column_names", Json.arr [Json.str "x"])] "columns"
      = some (Json.arr [Json.obj [("name", Json.str "a")]])
    ∧ columnsSource [("columns", Json.arr [Json.obj [("name", Json.str "a")]]),
        ("column_names", Json.arr [Json.str "x"])]
      = .ok [Json.obj [("name", Json.str "a")]]
    ∧ jget [("columns", Json.arr []), ("column_names", Json.arr [Json.str "x"])] "columns"
      = some (Json.arr [])
    ∧ jget [("columns", Json.arr []), ("column_names", Json.arr [Json.str "x"])] "column_names"
      = some (Json.arr [Json.str "x"])
    ∧ columnsSource [("columns", Json.arr []), ("column_names", Json.arr [Json.str "x"])]
      = .ok [Json.obj [("name", Json.str "x")]] := by
  refine ⟨rfl, ?_, rfl, rfl, ?_⟩
  · exact (columns_beats_column_names _ _ [] []).1 rfl
  · exact (columns_beats_column_names _ (Json.null) [] [Json.str "x"]).2 rfl rfl
